import Mathlib

/-!
Verification of the hotel-booking dialogue agent (`hotel_booking_agent.py`).

The agent is a slot-filling conversational system: per-turn it classifies
intent, extracts slots with regexes, advances a booking or rescheduling
state machine, and persists reservations and per-user sessions.  The
definitions below are a shallow embedding of the Python source: Python
dicts with a fixed key set become structures of `Option` fields (a key is
"in" the dict iff the field is `some`), the JSON files become explicit
store values threaded through the functions, `datetime.now()` becomes an
explicit `now : String` parameter, and the external LLM becomes an
`llm : String → Except String String` oracle (`.error` models a raised
exception, the only genuinely fallible step of the pipeline).
-/

namespace HotelBooking

/-! ### Python-style string primitives -/

/-- `str.lower()` (ASCII, which is all the agent's literals use). -/
def pyLower (s : String) : String := String.mk (s.data.map Char.toLower)

/-- `needle` occurs as a contiguous run somewhere in `hay` (chars). -/
def charsInfixOf (needle : List Char) : List Char → Bool
  | [] => needle.isPrefixOf []
  | c :: rest => needle.isPrefixOf (c :: rest) || charsInfixOf needle rest

/-- Python's `needle in hay` substring test. -/
def strContains (hay needle : String) : Bool := charsInfixOf needle.data hay.data

/-- Helper for `str.split()`: accumulate the current word (reversed). -/
def pyWordsAux : List Char → List Char → List String
  | [], acc => if acc.isEmpty then [] else [String.mk acc.reverse]
  | c :: rest, acc =>
    if c.isWhitespace then
      if acc.isEmpty then pyWordsAux rest []
      else String.mk acc.reverse :: pyWordsAux rest []
    else pyWordsAux rest (c :: acc)

/-- Python `str.split()` with no argument: split on whitespace runs, no empties. -/
def pySplit (s : String) : List String := pyWordsAux s.data []

/-- Python `str.isdigit()` restricted to ASCII: nonempty and all digits. -/
def pyIsDigitStr (s : String) : Bool := !s.data.isEmpty && s.data.all Char.isDigit

/-- Numeric value of a digit string, `int("...")` (leading zeros allowed). -/
def natOfDigits (cs : List Char) : Nat :=
  cs.foldl (fun n c => 10 * n + (c.toNat - '0'.toNat)) 0

/-- A regex word character `\w` (ASCII): letter, digit or underscore. -/
def isWordChar (c : Char) : Bool := c.isAlphanum || c = '_'

/-! ### Regex `\d{4}-\d{2}-\d{2}` (dates) -/

/-- Try to match `\d{4}-\d{2}-\d{2}` at the head of the character list. -/
def dateAt (cs : List Char) : Option String :=
  match cs with
  | d1 :: d2 :: d3 :: d4 :: h1 :: m1 :: m2 :: h2 :: n1 :: n2 :: _ =>
    if d1.isDigit && d2.isDigit && d3.isDigit && d4.isDigit && h1 = '-' &&
       m1.isDigit && m2.isDigit && h2 = '-' && n1.isDigit && n2.isDigit then
      some (String.mk [d1, d2, d3, d4, h1, m1, m2, h2, n1, n2])
    else none
  | _ => none

/-- `re.findall(r'\d{4}-\d{2}-\d{2}', s)`: scan left to right, on a match
continue after its ten characters, otherwise advance one character.
Fuel keeps the recursion structural; `length cs` is always enough. -/
def findDateMatchesAux : Nat → List Char → List String
  | 0, _ => []
  | _, [] => []
  | fuel + 1, c :: rest =>
    match dateAt (c :: rest) with
    | some m => m :: findDateMatchesAux fuel (rest.drop 9)
    | none => findDateMatchesAux fuel rest

/-- All date-shaped matches of a message, in order. -/
def findDateMatches (cs : List Char) : List String := findDateMatchesAux cs.length cs

/-! ### Regex `(\d+)\s*(?:guests?|people|persons?)` (explicit guest count) -/

/-- After the digits and optional whitespace, the alternation
`guests?|people|persons?` succeeds exactly when one of the three stems
is a prefix (the trailing `s?` makes the bare stem sufficient). -/
def guestWordAt (cs : List Char) : Bool :=
  "guest".data.isPrefixOf cs || "people".data.isPrefixOf cs ||
    "person".data.isPrefixOf cs

/-- Match `(\d+)\s*(?:guests?|people|persons?)` anchored at the head:
a maximal digit run, a maximal whitespace run, then a guest word.
(Backtracking to shorter runs cannot succeed, since the character it
would re-expose is a digit or a space, never `g`/`p`.) -/
def guestMatchAt (cs : List Char) : Option Nat :=
  let ds := cs.takeWhile Char.isDigit
  if ds.isEmpty then none
  else
    let rest := (cs.dropWhile Char.isDigit).dropWhile Char.isWhitespace
    if guestWordAt rest then some (natOfDigits ds) else none

/-- `re.search` of the guest pattern: leftmost match wins, scanning one
character at a time. -/
def guestSearch : List Char → Option Nat
  | [] => none
  | c :: rest =>
    match guestMatchAt (c :: rest) with
    | some n => some n
    | none => guestSearch rest

/-! ### Regex `\b(\d+)\b` (standalone numbers) -/

/-- `re.findall(r'\b(\d+)\b', s)`: every maximal digit run that is
word-boundary delimited on both sides, in order.  `prevWord` records
whether the previous character was a word character (start of string
counts as a boundary). -/
def standaloneNums : List Char → Bool → List Nat
  | [], _ => []
  | c :: rest, prevWord =>
    if c.isDigit && !prevWord then
      let ds := c :: rest.takeWhile Char.isDigit
      let ok := match (rest.dropWhile Char.isDigit).head? with
        | none => true
        | some nc => !isWordChar nc
      if ok then natOfDigits ds :: standaloneNums rest (isWordChar c)
      else standaloneNums rest (isWordChar c)
    else standaloneNums rest (isWordChar c)

/-! ### Room catalog (`HOTEL_DATA["room_types"]`) -/

/-- The keys of `HOTEL_DATA["room_types"]`, in insertion order. -/
def room_type_keys : List String := ["standard", "deluxe", "suite"]

/-- `HOTEL_DATA["room_types"][rt]["price"]`.  The orchestrator only ever
stores a catalog key in the `room_type` slot (extraction checks
membership), so the `none` case is unreachable there; Python would raise
`KeyError` on any other key. -/
def room_price (rt : String) : Option Nat :=
  if rt = "standard" then some 5000
  else if rt = "deluxe" then some 8000
  else if rt = "suite" then some 12000
  else none

/-! ### Slot extraction (`extract_booking_info`) -/

/-- The partial dict returned by `extract_booking_info`: a key is present
iff the field is `some`. -/
structure BookingInfo where
  check_in_date : Option String
  check_out_date : Option String
  room_type : Option String
  num_guests : Option Nat
deriving DecidableEq, Repr

/-- The empty extraction result (`info = {}` with no key set). -/
def emptyBookingInfo : BookingInfo := ⟨none, none, none, none⟩

/-- `extract_booking_info(user_message)`: dates by the first and second
`\d{4}-\d{2}-\d{2}` matches, room type as the first whitespace token that
is a catalog key (on the lower-cased text), guest count by the explicit
guest pattern (lower-cased text) with fallback to the first standalone
integer in `[1, 10]` (original text). -/
def extract_booking_info (user_message : String) : BookingInfo :=
  let user_message_lower := pyLower user_message
  let date_matches := findDateMatches user_message.data
  let user_words := pySplit user_message_lower
  { check_in_date := date_matches.head?
  , check_out_date := date_matches.get? 1
  , room_type := user_words.find? (fun w => room_type_keys.contains w)
  , num_guests :=
      match guestSearch user_message_lower.data with
      | some n => some n
      | none =>
        (standaloneNums user_message.data false).find?
          (fun n => 1 ≤ n && n ≤ 10) }

/-! ### Data model: session context and reservations -/

/-- `ASCII 39`, the apostrophe, used inside a few message literals. -/
def apos : String := String.mk [Char.ofNat 39]

/-- The session `context` dict.  The Python code only ever uses this fixed
key set; a key is present iff the field is `some`.  The two `*_in_progress`
flags are only ever set to `True`, and `ctx.get(flag)` is truthy iff the
field is `some true`. -/
structure Ctx where
  user_id : Option String
  check_in_date : Option String
  check_out_date : Option String
  room_type : Option String
  num_guests : Option Nat
  booking_in_progress : Option Bool
  rescheduling_in_progress : Option Bool
  reservation_id : Option Nat
  new_check_in_date : Option String
  new_check_out_date : Option String
deriving DecidableEq, Repr

/-- A context with no keys (`{}`). -/
def emptyCtx : Ctx := ⟨none, none, none, none, none, none, none, none, none, none⟩

/-- One record of the Reservation Store (`reservations.json`). -/
structure Reservation where
  id : Nat
  user_id : Option String
  check_in_date : String
  check_out_date : String
  room_type : String
  num_guests : Nat
  total_price : Nat
  created_at : String
  updated_at : Option String
deriving DecidableEq, Repr

/-! ### Intent classification (`detect_intent`) -/

/-- `booking_keywords` from the source, in list order. -/
def booking_keywords : List String :=
  ["book", "booking", "reserve", "reservation", "room", "stay", "check in"]

/-- `rescheduling_keywords` from the source, in list order. -/
def rescheduling_keywords : List String :=
  ["reschedule", "change", "modify", "update", "cancel"]

/-- Result of `detect_intent`: the chosen intent string and the (possibly
flag-updated) context. -/
structure IntentResult where
  intent : String
  ctx : Ctx
deriving DecidableEq, Repr

/-- `detect_intent`: sticky in-progress flags first, then keyword match on
the lower-cased message (booking keywords before rescheduling keywords),
else `question`. -/
def detect_intent (ctx : Ctx) (raw_message : String) : IntentResult :=
  let user_message := pyLower raw_message
  if ctx.booking_in_progress.getD false then ⟨"booking", ctx⟩
  else if ctx.rescheduling_in_progress.getD false then ⟨"rescheduling", ctx⟩
  else if booking_keywords.any (fun k => strContains user_message k) then
    ⟨"booking", { ctx with booking_in_progress := some true }⟩
  else if rescheduling_keywords.any (fun k => strContains user_message k) then
    ⟨"rescheduling", { ctx with rescheduling_in_progress := some true }⟩
  else ⟨"question", ctx⟩

/-! ### Prompt texts -/

def ciPrompt : String := "Please provide check-in date (YYYY-MM-DD)."
def coPrompt : String := "Please provide check-out date (YYYY-MM-DD)."
def rtPrompt : String :=
  "Please choose a room type: " ++ String.intercalate ", " room_type_keys ++ "."
def ngPrompt : String := "How many guests?"
def ridPrompt : String := "Please provide your reservation ID."
def ridInvalidPrompt : String := "Please enter a valid reservation ID (numbers only)."
def newCiPrompt : String := "Please provide new check-in date (YYYY-MM-DD)."
def newCoPrompt : String := "Please provide new check-out date (YYYY-MM-DD)."
def newCiFormatPrompt : String :=
  "Please provide the new check-in date in YYYY-MM-DD format."
def newCoFormatPrompt : String :=
  "Please provide the new check-out date in YYYY-MM-DD format."
def rescheduleSuccessMsg : String :=
  "âœ… Reservation updated successfully! Your new dates have been confirmed."
def rescheduleNotFoundMsg : String :=
  "âŒ Reservation ID not found. Please check your reservation ID and try again."

/-! ### Slot merging and `process_input` -/

/-- The merge loop of `process_input`'s booking branch:
`for key, value in extracted_info.items(): if key not in ctx: ctx[key] = value`.
A slot already in the context is never overwritten. -/
def mergeBookingInfo (ctx : Ctx) (info : BookingInfo) : Ctx :=
  { ctx with
    check_in_date := ctx.check_in_date <|> info.check_in_date
    check_out_date := ctx.check_out_date <|> info.check_out_date
    room_type := ctx.room_type <|> info.room_type
    num_guests := ctx.num_guests <|> info.num_guests }

/-- `process_input`: returns the updated context and the AI messages this
node appends (in order). -/
def process_input (intent : String) (user_message : String) (ctx : Ctx) :
    Ctx × List String :=
  if intent = "booking" then
    let ctx := mergeBookingInfo ctx (extract_booking_info user_message)
    if ctx.check_in_date.isNone then (ctx, [ciPrompt])
    else if ctx.check_out_date.isNone then (ctx, [coPrompt])
    else if ctx.room_type.isNone then (ctx, [rtPrompt])
    else if ctx.num_guests.isNone then (ctx, [ngPrompt])
    else (ctx, [])
  else if intent = "rescheduling" then
    if ctx.reservation_id.isNone then
      if pyIsDigitStr user_message then
        ({ ctx with reservation_id := some (natOfDigits user_message.data) }, [])
      else (ctx, [ridInvalidPrompt])
    else if ctx.new_check_in_date.isNone then
      match (findDateMatches user_message.data).head? with
      | some d => ({ ctx with new_check_in_date := some d }, [newCoPrompt])
      | none => (ctx, [newCiFormatPrompt])
    else if ctx.new_check_out_date.isNone then
      match (findDateMatches user_message.data).head? with
      | some d => ({ ctx with new_check_out_date := some d }, [])
      | none => (ctx, [newCoFormatPrompt])
    else (ctx, [])
  else (ctx, [])

/-! ### Booking completion (`handle_booking`) -/

/-- `max([r["id"] for r in reservations], default=0) + 1 if reservations else 1`. -/
def nextReservationId (reservations : List Reservation) : Nat :=
  if reservations.isEmpty then 1
  else (reservations.map (fun r => r.id)).foldl max 0 + 1

/-- The confirmation text built on booking completion (the source file is
double-encoded UTF-8; the literals below reproduce its characters as-is). -/
def confirmationMsg (r : Reservation) : String :=
  "ğŸ‰ Booking confirmed! Your reservation ID is: " ++ toString r.id ++
  "\n\nDetails:\nâ€¢ Check-in: " ++ r.check_in_date ++
  "\nâ€¢ Check-out: " ++ r.check_out_date ++
  "\nâ€¢ Room: " ++ r.room_type ++
  "\nâ€¢ Guests: " ++ toString r.num_guests ++
  "\nâ€¢ Total: â‚¹" ++ toString r.total_price ++
  "\n\nThank you for choosing Sunset Resort!"

/-- Result of `handle_booking`: updated context, updated Reservation Store,
appended AI messages, and `state["reservation_id"]`. -/
structure BookingOutcome where
  ctx : Ctx
  reservations : List Reservation
  msgs : List String
  reservation_id : Option Nat
deriving DecidableEq, Repr

/-- `handle_booking`: prompt for the first missing slot (in the source's
check order), or complete the booking — allocate the next id, price the
room from the catalog, append the record, clear the booking slots and the
`booking_in_progress` flag, and emit the confirmation. -/
def handle_booking (ctx : Ctx) (reservations : List Reservation) (now : String) :
    BookingOutcome :=
  match ctx.check_in_date, ctx.check_out_date, ctx.room_type, ctx.num_guests with
  | none, _, _, _ => ⟨ctx, reservations, [ciPrompt], none⟩
  | some _, none, _, _ => ⟨ctx, reservations, [coPrompt], none⟩
  | some _, some _, none, _ => ⟨ctx, reservations, [rtPrompt], none⟩
  | some _, some _, some _, none => ⟨ctx, reservations, [ngPrompt], none⟩
  | some ci, some co, some rt, some ng =>
    let reservation_id := nextReservationId reservations
    let reservation : Reservation :=
      { id := reservation_id
      , user_id := ctx.user_id
      , check_in_date := ci
      , check_out_date := co
      , room_type := rt
      , num_guests := ng
      , total_price := (room_price rt).getD 0
      , created_at := now
      , updated_at := none }
    ⟨{ ctx with
        check_in_date := none
      , check_out_date := none
      , room_type := none
      , num_guests := none
      , booking_in_progress := none }
    , reservations ++ [reservation]
    , [confirmationMsg reservation]
    , some reservation_id⟩

/-! ### Rescheduling completion (`handle_rescheduling`) -/

/-- The update loop: mutate the first record whose id matches, leave the
rest untouched, and report whether a match was found. -/
def updateReservationDates (rid : Nat) (ci co now : String) :
    List Reservation → List Reservation × Bool
  | [] => ([], false)
  | r :: rest =>
    if r.id = rid then
      ({ r with check_in_date := ci, check_out_date := co,
                updated_at := some now } :: rest, true)
    else
      let (rest', upd) := updateReservationDates rid ci co now rest
      (r :: rest', upd)

/-- Result of `handle_rescheduling`. -/
structure ReschedulingOutcome where
  ctx : Ctx
  reservations : List Reservation
  msgs : List String
deriving DecidableEq, Repr

/-- `handle_rescheduling`: prompt for the first missing slot; with all
three slots present, update the matching reservation.  On success the three
slot keys are popped (note: `rescheduling_in_progress` is not) and the
store is saved; on a miss only the not-found message is emitted — the
slots are left in place and the store is not saved. -/
def handle_rescheduling (ctx : Ctx) (reservations : List Reservation)
    (now : String) : ReschedulingOutcome :=
  match ctx.reservation_id, ctx.new_check_in_date, ctx.new_check_out_date with
  | none, _, _ => ⟨ctx, reservations, [ridPrompt]⟩
  | some _, none, _ => ⟨ctx, reservations, [newCiPrompt]⟩
  | some _, some _, none => ⟨ctx, reservations, [newCoPrompt]⟩
  | some rid, some ci, some co =>
    let (reservations', updated) := updateReservationDates rid ci co now reservations
    if updated then
      ⟨{ ctx with
          reservation_id := none
        , new_check_in_date := none
        , new_check_out_date := none }
      , reservations', [rescheduleSuccessMsg]⟩
    else
      ⟨ctx, reservations, [rescheduleNotFoundMsg]⟩

/-! ### Question answering (`handle_question`) -/

def amenitiesResponse : String :=
  "ğŸŠâ€â™‚ï¸ **Sunset Resort Amenities:**\n\nâ€¢ Swimming Pool - Perfect for relaxation\nâ€¢ Spa & Wellness Center - Rejuvenating treatments\nâ€¢ Restaurant - Local & international cuisine\nâ€¢ Free Wi-Fi - Stay connected throughout the resort\nâ€¢ 24/7 Front Desk - Always here to help\n\nAll amenities are included in your stay!"

def priceResponse : String :=
  "ğŸ’° **Room Rates at Sunset Resort:**\n\nâ€¢ Standard Room: â‚¹5,000/night (2 guests)\nâ€¢ Deluxe Room: â‚¹8,000/night (4 guests)\nâ€¢ Suite: â‚¹12,000/night (6 guests)\n\nAll rates include access to all amenities. Would you like to book a room?"

def roomTypesResponse : String :=
  "ğŸ¨ **Our Room Types:**\n\nâ€¢ **Standard Room** - Cozy comfort for 2 guests (â‚¹5,000/night)\nâ€¢ **Deluxe Room** - Spacious luxury for 4 guests (â‚¹8,000/night)\nâ€¢ **Suite** - Premium experience for 6 guests (â‚¹12,000/night)\n\nWhich room type interests you?"

def locationResponse : String :=
  "ğŸ“ **Sunset Resort Location:**\n\nWe" ++ apos ++ "re located in beautiful Goa, India - known for its stunning beaches, vibrant culture, and perfect weather!\n\nOur resort offers easy access to:\nâ€¢ Beautiful beaches\nâ€¢ Local markets\nâ€¢ Cultural attractions\nâ€¢ Adventure activities\n\nWould you like to know more about the area or book your stay?"

def checkinResponse : String :=
  "â° **Check-in & Check-out Times:**\n\nâ€¢ Check-in: 2:00 PM\nâ€¢ Check-out: 11:00 AM\n\nEarly check-in and late check-out may be available upon request, subject to availability."

def cancellationResponse : String :=
  "ğŸ“‹ **Cancellation Policy:**\n\nâ€¢ Free cancellation up to 48 hours before check-in\nâ€¢ Late cancellations may incur charges\nâ€¢ No-shows will be charged for the full stay\n\nWe recommend travel insurance for added protection."

/-- `json.dumps(HOTEL_DATA["room_types"], indent=2)`. -/
def roomTypesJson : String :=
  "\x7b\n  \"standard\": \x7b\n    \"price\": 5000,\n    \"capacity\": 2\n  \x7d,\n  \"deluxe\": \x7b\n    \"price\": 8000,\n    \"capacity\": 4\n  \x7d,\n  \"suite\": \x7b\n    \"price\": 12000,\n    \"capacity\": 6\n  \x7d\n\x7d"

/-- The fallback prompt handed to the external text-generation service. -/
def enhancedPrompt (user_message : String) : String :=
  "You are a helpful hotel booking assistant for Sunset Resort in Goa, India. \n        \nHotel Information:\n- Name: Sunset Resort\n- Location: Goa, India\n- Amenities: pool, spa, restaurant, free Wi-Fi\n- Check-in: 2:00 PM\n- Check-out: 11:00 AM\n\nRoom Types and Prices:\n" ++
  roomTypesJson ++ "\n\nUser Question: " ++ user_message ++
  "\n\nPlease provide a helpful, friendly response about the hotel, booking process, or any other relevant information. Keep it concise and encourage booking if appropriate."

/-- `handle_question`: canned FAQ categories by keyword, else delegate to
the external service.  `llm`'s `.error` models a raised exception of the
only fallible call in the pipeline. -/
def handle_question (llm : String → Except String String) (raw_message : String) :
    Except String String :=
  let user_message := pyLower raw_message
  let hit := fun (ws : List String) => ws.any (fun w => strContains user_message w)
  if hit ["amenities", "facilities", "what do you have",
          "what" ++ apos ++ "s included"] then .ok amenitiesResponse
  else if hit ["price", "cost", "rate", "how much", "fee"] then .ok priceResponse
  else if hit ["room", "rooms", "types", "accommodation"] then .ok roomTypesResponse
  else if hit ["location", "where", "address", "goa"] then .ok locationResponse
  else if hit ["check in", "checkin", "arrival", "time"] then .ok checkinResponse
  else if hit ["cancel", "cancellation", "policy"] then .ok cancellationResponse
  else llm (enhancedPrompt user_message)

/-! ### One turn of the graph (`app.invoke`) -/

/-- The observable outcome of one `app.invoke` turn: final context,
Reservation Store, the AI messages appended this turn, the reply
(`result["messages"][-1].content`) and `state["reservation_id"]`. -/
structure TurnResult where
  ctx : Ctx
  reservations : List Reservation
  msgs : List String
  reply : String
  reservation_id : Option Nat
deriving DecidableEq, Repr

/-- One turn of the compiled graph: `detect_intent → process_input →`
conditional edge on the intent to `handle_booking` / `handle_rescheduling`
/ `handle_question`.  The reply is the last message appended (falling back
to the inbound human message if — impossibly — no node appended one). -/
def app_invoke (llm : String → Except String String) (ctx : Ctx)
    (user_message : String) (reservations : List Reservation) (now : String) :
    Except String TurnResult :=
  let ir := detect_intent ctx user_message
  let pi := process_input ir.intent user_message ir.ctx
  if ir.intent = "booking" then
    let b := handle_booking pi.1 reservations now
    let msgs := pi.2 ++ b.msgs
    .ok ⟨b.ctx, b.reservations, msgs, (msgs.getLast?).getD user_message,
         b.reservation_id⟩
  else if ir.intent = "rescheduling" then
    let h := handle_rescheduling pi.1 reservations now
    let msgs := pi.2 ++ h.msgs
    .ok ⟨h.ctx, h.reservations, msgs, (msgs.getLast?).getD user_message, none⟩
  else
    match handle_question llm user_message with
    | .ok resp =>
      let msgs := pi.2 ++ [resp]
      .ok ⟨pi.1, reservations, msgs, (msgs.getLast?).getD user_message, none⟩
    | .error e => .error e

/-! ### Session Store (`chat_sessions.json`) and the turn handler -/

/-- One entry of `conversation_history`. -/
structure HistoryEntry where
  user : String
  assistant : String
  timestamp : String
deriving DecidableEq, Repr

/-- The per-user record persisted in `chat_sessions.json`. -/
structure StoredSession where
  context : Ctx
  conversation_history : List HistoryEntry
  last_updated : String
deriving DecidableEq, Repr

/-- The sessions file: a JSON object, i.e. an insertion-ordered map from
user id to stored session. -/
def Sessions := List (String × StoredSession)

instance : DecidableEq Sessions := inferInstanceAs (DecidableEq (List _))

/-- `sessions[user_id]` lookup. -/
def dictGet (sessions : Sessions) (k : String) : Option StoredSession :=
  (sessions.find? (fun p => p.1 = k)).map (fun p => p.2)

/-- `sessions[user_id] = v`: replace in place if present, else append. -/
def dictSet (k : String) (v : StoredSession) : Sessions → Sessions
  | [] => [(k, v)]
  | (k', v') :: rest =>
    if k' = k then (k, v) :: rest else (k', v') :: dictSet k v rest

/-- The in-memory slice of `AgentState` that survives across turns
(`load_agent_state` copies exactly `context` and `conversation_history`). -/
structure AgentSession where
  context : Ctx
  conversation_history : List HistoryEntry
deriving DecidableEq, Repr

/-- `load_agent_state(user_id)`: the stored context and history, or a fresh
default state for an unknown user. -/
def load_agent_state (sessions : Sessions) (user_id : String) : AgentSession :=
  match dictGet sessions user_id with
  | some s => ⟨s.context, s.conversation_history⟩
  | none => ⟨emptyCtx, []⟩

/-- `save_agent_state(user_id, state)`: read-modify-write of the whole
sessions map, replacing exactly the entry for `user_id` (with
`last_updated = now`). -/
def save_agent_state (sessions : Sessions) (user_id : String)
    (state : AgentSession) (now : String) : Sessions :=
  dictSet user_id ⟨state.context, state.conversation_history, now⟩ sessions

/-- The generic apology of the top-level exception handler. -/
def apologyMsg : String := "Sorry, something went wrong. Please try again."

/-- `handle_instagram_dm`: load the session, stamp `user_id` into the
context, run one graph turn, append to the history, save the session, and
return the reply.  A failure anywhere inside (modelled by the `.error` of
the pipeline) is caught at the top: nothing is persisted and the generic
apology is returned.  Returns (reply, sessions, reservation store). -/
def handle_instagram_dm (llm : String → Except String String)
    (sessions : Sessions) (reservations : List Reservation)
    (user_id message access_token now : String) :
    String × Sessions × List Reservation :=
  let _ := access_token
  let state := load_agent_state sessions user_id
  let ctx := { state.context with user_id := some user_id }
  match app_invoke llm ctx message reservations now with
  | .ok tr =>
    let history := state.conversation_history ++ [⟨message, tr.reply, now⟩]
    let sessions' := save_agent_state sessions user_id ⟨tr.ctx, history⟩ now
    (tr.reply, sessions', tr.reservations)
  | .error _ => (apologyMsg, sessions, reservations)

/-- Run a sequence of (message, timestamp) turns for one user through the
full turn handler, returning the last reply and the final stores. -/
def runDMSequence (llm : String → Except String String) (user_id access_token : String)
    (turns : List (String × String)) (sessions : Sessions)
    (reservations : List Reservation) : String × Sessions × List Reservation :=
  turns.foldl
    (fun acc t =>
      handle_instagram_dm llm acc.2.1 acc.2.2 user_id t.1 access_token t.2)
    ("", sessions, reservations)

/-- An `llm` oracle that never fails; the booking-flow scenarios never
reach it, so any total oracle gives the same results there. -/
def llmOk : String → Except String String := fun _ => .ok ""

/-- An `llm` oracle modelling the external service raising an exception. -/
def llmDown : String → Except String String := fun _ => .error "service unavailable"

/-! ### Spec-side intent classifier (for the refinement claim C6)

These definitions follow the wording of the specification (§4.1), not the
source, and exist to be compared with `detect_intent`. -/

/-- The spec's `activeFlow ∈ {none, booking, rescheduling}`. -/
inductive Flow
  | noFlow
  | booking
  | rescheduling
deriving DecidableEq, Repr

/-- The session's active flow as the spec reads it off the sticky flags. -/
def activeFlow (ctx : Ctx) : Flow :=
  if ctx.booking_in_progress.getD false then .booking
  else if ctx.rescheduling_in_progress.getD false then .rescheduling
  else .noFlow

/-- The lower-cased text contains some booking keyword. -/
def hasBookingKeyword (text : String) : Bool :=
  booking_keywords.any (fun k => strContains (pyLower text) k)

/-- The lower-cased text contains some rescheduling keyword. -/
def hasReschedulingKeyword (text : String) : Bool :=
  rescheduling_keywords.any (fun k => strContains (pyLower text) k)

/-- Spec §4.1: sticky flow first; else booking keywords, else rescheduling
keywords, else question. -/
def classifySpec (flow : Flow) (text : String) : String :=
  match flow with
  | .booking => "booking"
  | .rescheduling => "rescheduling"
  | .noFlow =>
    if hasBookingKeyword text then "booking"
    else if hasReschedulingKeyword text then "rescheduling"
    else "question"

/-- Spec §4.1: the only side effect is setting the new flow's flag when a
flow starts from the idle state. -/
def ctxAfterClassifySpec (ctx : Ctx) (text : String) : Ctx :=
  match activeFlow ctx with
  | .booking => ctx
  | .rescheduling => ctx
  | .noFlow =>
    if hasBookingKeyword text then { ctx with booking_in_progress := some true }
    else if hasReschedulingKeyword text then
      { ctx with rescheduling_in_progress := some true }
    else ctx

/-! ### Helper lemmas -/

/-- `o <|> none = o` for `Option`. -/
theorem orElse_none' {α : Type} (o : Option α) : (o <|> none) = o := by
  cases o <;> rfl

/-- Merging an empty extraction result leaves the context unchanged. -/
theorem mergeBookingInfo_empty (ctx : Ctx) :
    mergeBookingInfo ctx emptyBookingInfo = ctx := by
  cases ctx
  simp [mergeBookingInfo, emptyBookingInfo, orElse_none']

/-- The booking branch of `process_input` returns the merged context in
every prompt branch. -/
theorem process_input_booking_ctx (msg : String) (ctx : Ctx) :
    (process_input "booking" msg ctx).1 =
      mergeBookingInfo ctx (extract_booking_info msg) := by
  unfold process_input
  split
  · dsimp only
    split
    · rfl
    · split
      · rfl
      · split
        · rfl
        · split <;> rfl
  · rename_i h
    exact absurd rfl h

/-- If no stored reservation has the requested id, the update loop returns
the store unchanged and reports no match. -/
theorem updateReservationDates_no_match (rid : Nat) (ci co now : String) :
    ∀ res : List Reservation, (∀ r ∈ res, r.id ≠ rid) →
      updateReservationDates rid ci co now res = (res, false) := by
  intro res
  induction res with
  | nil => intro _; rfl
  | cons r rest ih =>
    intro h
    have hr : r.id ≠ rid := h r (by simp)
    have hrest : ∀ r' ∈ rest, r'.id ≠ rid := fun r' hm => h r' (by simp [hm])
    simp [updateReservationDates, hr, ih hrest]

/-- The update loop mutates exactly the first record whose id matches:
everything before it and after it is returned unchanged, and only the two
date fields and `updated_at` of the matched record change. -/
theorem updateReservationDates_found (rid : Nat) (ci co now : String) :
    ∀ (pre : List Reservation) (r : Reservation) (post : List Reservation),
      (∀ p ∈ pre, p.id ≠ rid) → r.id = rid →
      updateReservationDates rid ci co now (pre ++ r :: post) =
        (pre ++ { r with check_in_date := ci, check_out_date := co,
                         updated_at := some now } :: post, true) := by
  intro pre
  induction pre with
  | nil =>
    intro r post _ hr
    simp [updateReservationDates, hr]
  | cons p pre ih =>
    intro r post h hr
    have hp : p.id ≠ rid := h p (by simp)
    have hpre : ∀ q ∈ pre, q.id ≠ rid := fun q hm => h q (by simp [hm])
    simp [updateReservationDates, hp, ih r post hpre hr]

/-- `foldl max` stays above its seed and above every element. -/
theorem foldl_max_bounds (l : List Nat) :
    ∀ a : Nat, a ≤ l.foldl max a ∧ ∀ x ∈ l, x ≤ l.foldl max a := by
  induction l with
  | nil => intro a; exact ⟨le_refl a, by simp⟩
  | cons y ys ih =>
    intro a
    have h := ih (max a y)
    constructor
    · exact le_trans (le_max_left a y) (by simpa [List.foldl] using h.1)
    · intro x hx
      rcases List.mem_cons.mp hx with hxy | hxs
      · subst hxy
        exact le_trans (le_max_right a x) (by simpa [List.foldl] using h.1)
      · simpa [List.foldl] using h.2 x hxs

/-- `foldl max` is attained: it is the seed or some element. -/
theorem foldl_max_mem (l : List Nat) :
    ∀ a : Nat, l.foldl max a ∈ a :: l := by
  induction l with
  | nil => intro a; simp [List.foldl]
  | cons y ys ih =>
    intro a
    have h := ih (max a y)
    rcases List.mem_cons.mp h with h1 | h2
    · rcases max_choice a y with hm | hm <;> rw [List.foldl, h1, hm] <;> simp
    · simp [List.foldl, h2]

/-- `foldl max 0` over `[1, 2, ..., k]` is `k`. -/
theorem foldl_max_range' : ∀ k : Nat, (List.range' 1 k).foldl max 0 = k := by
  intro k
  induction k with
  | zero => rfl
  | succ k ih =>
    rw [List.range'_concat, List.foldl_append, ih]
    simp [Nat.max_eq_right, Nat.le_succ]
    omega

/-! ### A serialized sequence of completed bookings (for C5) -/

/-- The payload of one completed booking flow. -/
structure BookingReq where
  uid : Option String
  ci : String
  co : String
  rt : String
  ng : Nat
  now : String

/-- A context holding all four booking slots, as at the completion turn. -/
def bookingCtx (q : BookingReq) : Ctx :=
  { emptyCtx with
    user_id := q.uid
  , check_in_date := some q.ci
  , check_out_date := some q.co
  , room_type := some q.rt
  , num_guests := some q.ng
  , booking_in_progress := some true }

/-- Run a serialized sequence of completed bookings against the store. -/
def runBookings (store : List Reservation) : List BookingReq → List Reservation
  | [] => store
  | q :: qs => runBookings (handle_booking (bookingCtx q) store q.now).reservations qs

/-- A completed booking appends exactly one record, carrying the freshly
allocated id. -/
theorem handle_booking_complete_reservations (q : BookingReq)
    (store : List Reservation) :
    (handle_booking (bookingCtx q) store q.now).reservations =
      store ++ [{ id := nextReservationId store
                , user_id := q.uid
                , check_in_date := q.ci
                , check_out_date := q.co
                , room_type := q.rt
                , num_guests := q.ng
                , total_price := (room_price q.rt).getD 0
                , created_at := q.now
                , updated_at := none }] := rfl

/-- Invariant step: if the store's ids are `[1..k]`, any serialized booking
sequence extends them to `[1..k + n]`. -/
theorem runBookings_ids :
    ∀ (qs : List BookingReq) (store : List Reservation) (k : Nat),
      store.map (fun r => r.id) = List.range' 1 k →
      (runBookings store qs).map (fun r => r.id) = List.range' 1 (k + qs.length) := by
  intro qs
  induction qs with
  | nil => intro store k h; simpa using h
  | cons q qs ih =>
    intro store k h
    have hnext : nextReservationId store = k + 1 := by
      rcases store with _ | ⟨r, rest⟩
      · have : k = 0 := by
          have h0 := congrArg List.length h
          simpa using h0.symm
        simp [nextReservationId, this]
      · have hne : ((r :: rest : List Reservation).isEmpty) = false := rfl
        rw [nextReservationId, hne]
        simp only [Bool.false_eq_true, if_false, h, foldl_max_range']
    have hstep : ((handle_booking (bookingCtx q) store q.now).reservations).map
        (fun r => r.id) = List.range' 1 (k + 1) := by
      rw [handle_booking_complete_reservations, List.map_append, h, hnext]
      simp [List.range'_concat, Nat.add_comm]
    have := ih (handle_booking (bookingCtx q) store q.now).reservations (k + 1) hstep
    rw [runBookings, this]
    congr 1
    simp [List.length_cons]
    omega

/-! ### Concrete fixtures -/

def res1 : Reservation :=
  ⟨1, some "A", "2025-07-01", "2025-07-03", "deluxe", 2, 8000, "t0", none⟩
def res2 : Reservation :=
  ⟨2, some "B", "2025-08-10", "2025-08-12", "standard", 1, 5000, "t0", none⟩
def res3 : Reservation :=
  ⟨3, some "C", "2025-09-01", "2025-09-02", "suite", 4, 12000, "t0", none⟩

/-- A store holding reservations with ids 1, 2, 3. -/
def threeStore : List Reservation := [res1, res2, res3]

/-! ### Claim C1 -/

/-- The five messages of the spec's booking scenario, one per turn. -/
def c1Turns : List (String × String) :=
  [("I want to book a room", "t1"), ("2025-07-01", "t2"), ("2025-07-03", "t3"),
   ("deluxe", "t4"), ("2", "t5")]

/-- The scenario run from an empty Session Store and Reservation Store. -/
def c1Run : String × Sessions × List Reservation :=
  runDMSequence llmOk "A" "token" c1Turns [] []

/-- C1: the spec's scenario — "I want to book a room", "2025-07-01",
"2025-07-03", "deluxe", "2" — is claimed to end with a confirmed booking
(total price 8000) and one stored record.  The code does not do this: the
extractor always maps a lone date match to `check_in_date`, so once the
check-in date is set a single-date message can never fill
`check_out_date`; moreover the "07" inside the first date is captured as
`num_guests = 7`.  The run therefore ends re-prompting for the check-out
date with an empty Reservation Store — the claim fails on the code
(code bug: the spec's scenario is the program's central use case). -/
theorem C1_scenario_diverges :
    c1Run.1 = coPrompt ∧ c1Run.2.2 = [] ∧
    (dictGet c1Run.2.1 "A").map (fun s => s.context.num_guests) =
      some (some 7) ∧
    (dictGet c1Run.2.1 "A").map (fun s => s.context.booking_in_progress) =
      some (some true) := by decide

/-! ### Claim C2 -/

/-- A context at the completion turn of a rescheduling flow for id 1. -/
def c2Ctx : Ctx :=
  { emptyCtx with
    user_id := some "A"
  , rescheduling_in_progress := some true
  , reservation_id := some 1
  , new_check_in_date := some "2025-09-10"
  , new_check_out_date := some "2025-09-12" }

/-- C2 counterexample: a rescheduling flow that reaches completion (the
success message is emitted) does not clear the `rescheduling_in_progress`
flag, contradicting the claim that on completion every flow clears its
active-flow flag. -/
theorem C2_counterexample :
    (handle_rescheduling c2Ctx threeStore "t9").msgs = [rescheduleSuccessMsg] ∧
    (handle_rescheduling c2Ctx threeStore "t9").ctx.rescheduling_in_progress =
      some true := by decide

/-- C2 (amended): on booking completion all four booking slots and the
`booking_in_progress` flag are cleared; on successful rescheduling
completion the three rescheduling slots are cleared but the
`rescheduling_in_progress` flag is left exactly as it was (it is never
cleared), so the next turn is still classified as rescheduling. -/
theorem C2_completion_clears_slots :
    (∀ (ctx : Ctx) (res : List Reservation) (now ci co rt : String) (ng : Nat),
      ctx.check_in_date = some ci → ctx.check_out_date = some co →
      ctx.room_type = some rt → ctx.num_guests = some ng →
      (handle_booking ctx res now).ctx.check_in_date = none ∧
      (handle_booking ctx res now).ctx.check_out_date = none ∧
      (handle_booking ctx res now).ctx.room_type = none ∧
      (handle_booking ctx res now).ctx.num_guests = none ∧
      (handle_booking ctx res now).ctx.booking_in_progress = none) ∧
    (∀ (ctx : Ctx) (now ci co : String) (rid : Nat)
       (pre post : List Reservation) (r : Reservation),
      ctx.reservation_id = some rid → ctx.new_check_in_date = some ci →
      ctx.new_check_out_date = some co →
      (∀ p ∈ pre, p.id ≠ rid) → r.id = rid →
      (handle_rescheduling ctx (pre ++ r :: post) now).msgs =
        [rescheduleSuccessMsg] ∧
      (handle_rescheduling ctx (pre ++ r :: post) now).ctx.reservation_id = none ∧
      (handle_rescheduling ctx (pre ++ r :: post) now).ctx.new_check_in_date = none ∧
      (handle_rescheduling ctx (pre ++ r :: post) now).ctx.new_check_out_date = none ∧
      (handle_rescheduling ctx (pre ++ r :: post) now).ctx.rescheduling_in_progress =
        ctx.rescheduling_in_progress) := by
  constructor
  · intro ctx res now ci co rt ng h1 h2 h3 h4
    simp [handle_booking, h1, h2, h3, h4]
  · intro ctx now ci co rid pre post r h1 h2 h3 hpre hr
    simp [handle_rescheduling, h1, h2, h3,
          updateReservationDates_found rid ci co now pre r post hpre hr]

/-- Witness for C2 (amended) at concrete inputs. -/
theorem C2_completion_clears_slots_witness :
    ((handle_booking (bookingCtx ⟨some "A", "2025-07-01", "2025-07-03",
        "deluxe", 2, "t1"⟩) [] "t1").ctx.booking_in_progress = none) ∧
    ((handle_rescheduling c2Ctx ([] ++ res1 :: [res2, res3]) "t9").ctx.rescheduling_in_progress =
      c2Ctx.rescheduling_in_progress) := by
  constructor
  · exact (C2_completion_clears_slots.1 (bookingCtx ⟨some "A", "2025-07-01",
      "2025-07-03", "deluxe", 2, "t1"⟩) [] "t1" "2025-07-01" "2025-07-03"
      "deluxe" 2 rfl rfl rfl rfl).2.2.2.2
  · exact (C2_completion_clears_slots.2 c2Ctx "t9" "2025-09-10" "2025-09-12" 1
      [] [res2, res3] res1 rfl rfl rfl (by simp) (by decide)).2.2.2.2

/-! ### Claim C3 -/

/-- A completion-turn rescheduling context whose id (9999) matches nothing. -/
def c3Ctx : Ctx :=
  { emptyCtx with
    user_id := some "A"
  , rescheduling_in_progress := some true
  , reservation_id := some 9999
  , new_check_in_date := some "2025-09-10"
  , new_check_out_date := some "2025-09-12" }

/-- C3 counterexample: rescheduling with id 9999 against a store holding
ids 1–3 emits the not-found message and leaves the store untouched, but —
contrary to the claim — the rescheduling slots are NOT cleared: the
context comes back entirely unchanged, still holding `reservation_id =
9999` and both new dates. -/
theorem C3_counterexample :
    (handle_rescheduling c3Ctx threeStore "t9").msgs = [rescheduleNotFoundMsg] ∧
    (handle_rescheduling c3Ctx threeStore "t9").reservations = threeStore ∧
    (handle_rescheduling c3Ctx threeStore "t9").ctx = c3Ctx ∧
    c3Ctx.reservation_id = some 9999 := by decide

/-- C3 (amended): when the collected `reservationId` matches no stored
reservation, the turn emits the not-found message and leaves every stored
record unchanged — but the rescheduling slots are retained in the session
context (the whole context is unchanged), so the failed lookup is re-run
on later turns rather than being a cleared terminal failure. -/
theorem C3_notfound_keeps_slots :
    ∀ (ctx : Ctx) (rid : Nat) (ci co : String) (res : List Reservation)
      (now : String),
      ctx.reservation_id = some rid → ctx.new_check_in_date = some ci →
      ctx.new_check_out_date = some co →
      (∀ r ∈ res, r.id ≠ rid) →
      handle_rescheduling ctx res now = ⟨ctx, res, [rescheduleNotFoundMsg]⟩ := by
  intro ctx rid ci co res now h1 h2 h3 hmiss
  simp [handle_rescheduling, h1, h2, h3,
        updateReservationDates_no_match rid ci co now res hmiss]

/-- Witness for C3 (amended) at the concrete id-9999 fixture. -/
theorem C3_notfound_keeps_slots_witness :
    handle_rescheduling c3Ctx threeStore "t9" =
      ⟨c3Ctx, threeStore, [rescheduleNotFoundMsg]⟩ :=
  C3_notfound_keeps_slots c3Ctx 9999 "2025-09-10" "2025-09-12" threeStore "t9"
    rfl rfl rfl (by decide)

/-! ### Claim C7 -/

/-- C7: a completed rescheduling of an existing reservation overwrites
exactly the matched record's two date fields and sets `updated_at`; its
id, user id, room type, guest count, price and creation time — and every
other record in the store — are unchanged (the `{ r with ... }` form of
the conclusion exhibits precisely which fields change), and the price is
never recomputed. -/
theorem C7_reschedule_frame :
    ∀ (ctx : Ctx) (now ci co : String) (rid : Nat)
      (pre post : List Reservation) (r : Reservation),
      ctx.reservation_id = some rid → ctx.new_check_in_date = some ci →
      ctx.new_check_out_date = some co →
      (∀ p ∈ pre, p.id ≠ rid) → r.id = rid →
      handle_rescheduling ctx (pre ++ r :: post) now =
        ⟨{ ctx with
             reservation_id := none
           , new_check_in_date := none
           , new_check_out_date := none }
        , pre ++ { r with check_in_date := ci, check_out_date := co,
                          updated_at := some now } :: post
        , [rescheduleSuccessMsg]⟩ := by
  intro ctx now ci co rid pre post r h1 h2 h3 hpre hr
  simp [handle_rescheduling, h1, h2, h3,
        updateReservationDates_found rid ci co now pre r post hpre hr]

/-- Witness for C7: reschedule reservation 2 among three records. -/
theorem C7_reschedule_frame_witness :
    handle_rescheduling
        { emptyCtx with
          rescheduling_in_progress := some true
        , reservation_id := some 2
        , new_check_in_date := some "2025-10-01"
        , new_check_out_date := some "2025-10-05" }
        ([res1] ++ res2 :: [res3]) "t9" =
      ⟨{ emptyCtx with rescheduling_in_progress := some true }
      , [res1] ++ { res2 with check_in_date := "2025-10-01",
                              check_out_date := "2025-10-05",
                              updated_at := some "t9" } :: [res3]
      , [rescheduleSuccessMsg]⟩ :=
  C7_reschedule_frame
    { emptyCtx with
      rescheduling_in_progress := some true
    , reservation_id := some 2
    , new_check_in_date := some "2025-10-01"
    , new_check_out_date := some "2025-10-05" }
    "t9" "2025-10-01" "2025-10-05" 2 [res1] [res3] res2
    rfl rfl rfl (by decide) (by decide)

/-! ### Claim C4 -/

/-- C4: in the booking flow, extraction maps the first `YYYY-MM-DD`-shaped
match to `check_in_date` and the second to `check_out_date`; merging into
the session context applies the full mapping exactly when both date slots
are absent, and a slot already present is never overwritten (so the full
first↦check-in / second↦check-out assignment takes effect only when both
were absent). -/
theorem C4_date_slot_mapping :
    ∀ (msg : String) (ctx : Ctx),
      (extract_booking_info msg).check_in_date =
        (findDateMatches msg.data).head? ∧
      (extract_booking_info msg).check_out_date =
        (findDateMatches msg.data).get? 1 ∧
      (ctx.check_in_date = none → ctx.check_out_date = none →
        (process_input "booking" msg ctx).1.check_in_date =
          (findDateMatches msg.data).head? ∧
        (process_input "booking" msg ctx).1.check_out_date =
          (findDateMatches msg.data).get? 1) ∧
      (∀ v, ctx.check_in_date = some v →
        (process_input "booking" msg ctx).1.check_in_date = some v) ∧
      (∀ v, ctx.check_out_date = some v →
        (process_input "booking" msg ctx).1.check_out_date = some v) := by
  intro msg ctx
  have hctx := process_input_booking_ctx msg ctx
  refine ⟨rfl, rfl, ?_, ?_, ?_⟩
  · intro h1 h2
    rw [hctx]
    constructor <;> simp [mergeBookingInfo, h1, h2, extract_booking_info]
  · intro v hv
    rw [hctx]
    simp [mergeBookingInfo, hv]
  · intro v hv
    rw [hctx]
    simp [mergeBookingInfo, hv]

/-- Witness for C4 on a two-date message merged into an empty context. -/
theorem C4_date_slot_mapping_witness :
    emptyCtx.check_in_date = none ∧
    findDateMatches ("book 2025-07-01 2025-07-03").data =
      ["2025-07-01", "2025-07-03"] ∧
    ((process_input "booking" "book 2025-07-01 2025-07-03" emptyCtx).1.check_in_date =
        (findDateMatches ("book 2025-07-01 2025-07-03").data).head? ∧
      (process_input "booking" "book 2025-07-01 2025-07-03" emptyCtx).1.check_out_date =
        (findDateMatches ("book 2025-07-01 2025-07-03").data).get? 1) :=
  ⟨rfl, by decide,
   (C4_date_slot_mapping "book 2025-07-01 2025-07-03" emptyCtx).2.2.1 rfl rfl⟩

/-! ### Claim C5 -/

/-- C5: id allocation.  `nextReservationId` is 1 on the empty store and
`max(existing ids) + 1` otherwise (so it exceeds every stored id and an
existing id is never reused), and any serialized sequence of `n` completed
bookings from the empty store assigns exactly the ids `1, 2, ..., n` —
strictly increasing, no gaps, no repeats. -/
theorem C5_id_allocation :
    (nextReservationId [] = 1) ∧
    (∀ res : List Reservation, res ≠ [] →
      ∃ r ∈ res, nextReservationId res = r.id + 1) ∧
    (∀ res : List Reservation, ∀ r ∈ res, r.id < nextReservationId res) ∧
    (∀ qs : List BookingReq,
      (runBookings [] qs).map (fun r => r.id) = List.range' 1 qs.length) := by
  refine ⟨rfl, ?_, ?_, ?_⟩
  · intro res hne
    have hempty : res.isEmpty = false := by
      cases res with
      | nil => exact absurd rfl hne
      | cons r rest => rfl
    rw [nextReservationId, hempty]
    simp only [Bool.false_eq_true, if_false]
    have hmem := foldl_max_mem (res.map fun r => r.id) 0
    rcases List.mem_cons.mp hmem with h0 | hm
    · cases res with
      | nil => exact absurd rfl hne
      | cons r rest =>
        refine ⟨r, by simp, ?_⟩
        have hb := (foldl_max_bounds ((r :: rest).map fun r => r.id) 0).2
          r.id (by simp)
        rw [h0]
        rw [h0] at hb
        omega
    · rcases List.mem_map.mp hm with ⟨r, hr, hid⟩
      exact ⟨r, hr, by rw [← hid]⟩
  · intro res r hr
    have hempty : res.isEmpty = false := by
      cases res with
      | nil => simp at hr
      | cons a rest => rfl
    rw [nextReservationId, hempty]
    simp only [Bool.false_eq_true, if_false]
    have hb := (foldl_max_bounds (res.map fun r => r.id) 0).2 r.id
      (List.mem_map.mpr ⟨r, hr, rfl⟩)
    omega
  · intro qs
    simpa using runBookings_ids qs [] 0 rfl

/-- Witness for C5: three concrete bookings get ids 1, 2, 3, and on the
three-record store the next id is `max + 1 = 4`. -/
theorem C5_id_allocation_witness :
    (∃ r ∈ threeStore, nextReservationId threeStore = r.id + 1) ∧
    (runBookings []
        [⟨some "A", "2025-07-01", "2025-07-03", "deluxe", 2, "t1"⟩,
         ⟨some "B", "2025-08-10", "2025-08-12", "standard", 1, "t2"⟩,
         ⟨some "C", "2025-09-01", "2025-09-02", "suite", 4, "t3"⟩]).map
      (fun r => r.id) = List.range' 1 3 :=
  ⟨C5_id_allocation.2.1 threeStore (by decide),
   C5_id_allocation.2.2.2
     [⟨some "A", "2025-07-01", "2025-07-03", "deluxe", 2, "t1"⟩,
      ⟨some "B", "2025-08-10", "2025-08-12", "standard", 1, "t2"⟩,
      ⟨some "C", "2025-09-01", "2025-09-02", "suite", 4, "t3"⟩]⟩

/-! ### Claim C6 -/

/-- C6: `detect_intent` refines the spec's classifier — sticky booking
flag first, then sticky rescheduling flag, then booking keywords, then
rescheduling keywords, else question; a message matching both keyword
sets from the idle state classifies as booking; and the only context
mutation is setting the newly started flow's flag. -/
theorem C6_intent_classification :
    ∀ (ctx : Ctx) (msg : String),
      (detect_intent ctx msg).intent = classifySpec (activeFlow ctx) msg ∧
      (detect_intent ctx msg).ctx = ctxAfterClassifySpec ctx msg ∧
      (activeFlow ctx = .noFlow → hasBookingKeyword msg = true →
        (detect_intent ctx msg).intent = "booking") := by
  intro ctx msg
  unfold detect_intent classifySpec ctxAfterClassifySpec activeFlow
    hasBookingKeyword hasReschedulingKeyword
  cases hb : ctx.booking_in_progress.getD false
  · cases hr : ctx.rescheduling_in_progress.getD false
    · cases hbk : booking_keywords.any fun k => strContains (pyLower msg) k
      · cases hrk : rescheduling_keywords.any fun k => strContains (pyLower msg) k
        · simp [hb, hr, hbk, hrk]
        · simp [hb, hr, hbk, hrk]
      · simp [hb, hr, hbk]
    · simp [hb, hr]
  · simp [hb]

/-- Witness for C6: "please change my booking" matches both keyword sets
from the idle state and resolves to booking. -/
theorem C6_intent_classification_witness :
    activeFlow emptyCtx = .noFlow ∧
    hasBookingKeyword "please change my booking" = true ∧
    hasReschedulingKeyword "please change my booking" = true ∧
    (detect_intent emptyCtx "please change my booking").intent = "booking" :=
  ⟨rfl, by decide, by decide,
   (C6_intent_classification emptyCtx "please change my booking").2.2 rfl
     (by decide)⟩

/-! ### Claim C8 -/

/-- A session sitting at the check-in-date prompt of the booking flow. -/
def c8Ctx : Ctx := { emptyCtx with user_id := some "A", booking_in_progress := some true }

/-- C8 counterexample: "3 guests" contains no extractable date, and the
turn does re-issue the identical check-in prompt — but the session context
is NOT left unchanged: the `num_guests` slot is filled with 3.  The claim
that every date-free message leaves the context unchanged is false. -/
theorem C8_counterexample :
    findDateMatches ("3 guests").data = [] ∧
    app_invoke llmOk c8Ctx "3 guests" [] "t1" =
      .ok ⟨{ c8Ctx with num_guests := some 3 }, [], [ciPrompt, ciPrompt],
           ciPrompt, none⟩ ∧
    { c8Ctx with num_guests := some 3 } ≠ c8Ctx := by
  refine ⟨by decide, rfl, by decide⟩

/-- C8 (amended): while the booking flow awaits the check-in date, a
message from which no booking information at all can be extracted (no
date, no room type, no guest count — e.g. "july 1st") re-issues the
identical check-in-date prompt and leaves the session context and the
Reservation Store unchanged.  (A date-free message that does carry a room
type or guest count still re-issues the same prompt but fills that other
slot, per the counterexample.) -/
theorem C8_empty_extraction_idempotent :
    ∀ (llm : String → Except String String) (ctx : Ctx) (msg : String)
      (res : List Reservation) (now : String),
      ctx.booking_in_progress = some true →
      ctx.check_in_date = none →
      extract_booking_info msg = emptyBookingInfo →
      app_invoke llm ctx msg res now =
        .ok ⟨ctx, res, [ciPrompt, ciPrompt], ciPrompt, none⟩ := by
  intro llm ctx msg res now hb hci hx
  have hm : mergeBookingInfo ctx (extract_booking_info msg) = ctx := by
    rw [hx, mergeBookingInfo_empty]
  have hpi : process_input "booking" msg ctx = (ctx, [ciPrompt]) := by
    unfold process_input
    split
    · dsimp only
      rw [hm]
      simp [hci]
    · rename_i h
      exact absurd rfl h
  have hhb : handle_booking ctx res now = ⟨ctx, res, [ciPrompt], none⟩ := by
    unfold handle_booking
    simp [hci]
  unfold app_invoke
  simp [detect_intent, hb, hpi, hhb]

/-- Witness for C8 (amended) at the spec's own example "july 1st". -/
theorem C8_empty_extraction_idempotent_witness :
    extract_booking_info "july 1st" = emptyBookingInfo ∧
    app_invoke llmOk c8Ctx "july 1st" [] "t1" =
      .ok ⟨c8Ctx, [], [ciPrompt, ciPrompt], ciPrompt, none⟩ :=
  ⟨by decide,
   C8_empty_extraction_idempotent llmOk c8Ctx "july 1st" [] "t1" rfl rfl
     (by decide)⟩

/-! ### Claim C9 -/

/-- C9: the turn handler always returns a reply string — on any failure
inside the turn pipeline (modelled by the pipeline's `.error`) the
top-level handler catches it, persists nothing, and returns the single
generic apology; on success it returns the pipeline's reply. -/
theorem C9_top_level_catch :
    ∀ (llm : String → Except String String) (sessions : Sessions)
      (res : List Reservation) (uid msg tok now : String),
      (∀ e, app_invoke llm
          { (load_agent_state sessions uid).context with user_id := some uid }
          msg res now = .error e →
        handle_instagram_dm llm sessions res uid msg tok now =
          (apologyMsg, sessions, res)) ∧
      (∀ tr, app_invoke llm
          { (load_agent_state sessions uid).context with user_id := some uid }
          msg res now = .ok tr →
        (handle_instagram_dm llm sessions res uid msg tok now).1 = tr.reply) := by
  intro llm sessions res uid msg tok now
  constructor
  · intro e h
    simp [handle_instagram_dm, h]
  · intro tr h
    simp [handle_instagram_dm, h]

/-- Witness for C9: with the external service down, a free-form question
turn returns exactly the apology and leaves both stores untouched. -/
theorem C9_top_level_catch_witness :
    app_invoke llmDown
        { (load_agent_state [] "u1").context with user_id := some "u1" }
        "hello please help" [] "t0" = .error "service unavailable" ∧
    handle_instagram_dm llmDown [] [] "u1" "hello please help" "tok" "t0" =
      (apologyMsg, [], []) :=
  ⟨rfl,
   (C9_top_level_catch llmDown [] [] "u1" "hello please help" "tok" "t0").1
     "service unavailable" rfl⟩

/-! ### Claim C10 -/

/-- Setting a key returns exactly that key's new value. -/
theorem dictGet_dictSet_self (k : String) (v : StoredSession) :
    ∀ s : Sessions, dictGet (dictSet k v s) k = some v := by
  intro s
  induction s with
  | nil => simp [dictSet, dictGet]
  | cons p rest ih =>
    rcases p with ⟨k', v'⟩
    by_cases h : k' = k
    · simp [dictSet, h, dictGet]
    · simpa [dictSet, h, dictGet] using ih

/-- Setting one key leaves every other key's lookup unchanged. -/
theorem dictGet_dictSet_other (k : String) (v : StoredSession) (k' : String)
    (hne : k' ≠ k) :
    ∀ s : Sessions, dictGet (dictSet k v s) k' = dictGet s k' := by
  intro s
  induction s with
  | nil => simp [dictSet, dictGet, List.find?, hne, Ne.symm hne]
  | cons p rest ih =>
    rcases p with ⟨k0, v0⟩
    by_cases h : k0 = k
    · subst h
      simp [dictSet, dictGet, List.find?, hne, Ne.symm hne]
    · by_cases h0 : k0 = k'
      · subst h0
        simp [dictSet, h, dictGet, List.find?]
      · simpa [dictSet, h, dictGet, List.find?, h0] using ih

/-- C10: saving one user's session replaces exactly that user's entry in
the sessions map: every other user's stored session is unchanged, and the
saved user's entry becomes the given context/history stamped with `now`. -/
theorem C10_save_state_frame :
    ∀ (sessions : Sessions) (uid uid' : String) (st : AgentSession)
      (now : String),
      uid' ≠ uid →
      dictGet (save_agent_state sessions uid st now) uid' =
        dictGet sessions uid' ∧
      dictGet (save_agent_state sessions uid st now) uid =
        some ⟨st.context, st.conversation_history, now⟩ := by
  intro sessions uid uid' st now hne
  exact ⟨dictGet_dictSet_other uid ⟨st.context, st.conversation_history, now⟩
           uid' hne sessions,
         dictGet_dictSet_self uid ⟨st.context, st.conversation_history, now⟩
           sessions⟩

/-- Witness for C10 on a two-user sessions map. -/
theorem C10_save_state_frame_witness :
    dictGet (save_agent_state
        [("A", ⟨emptyCtx, [], "t0"⟩), ("B", ⟨c8Ctx, [], "t0"⟩)]
        "A" ⟨c2Ctx, [⟨"hi", "ok", "t1"⟩]⟩ "t1") "B" =
      dictGet [("A", ⟨emptyCtx, [], "t0"⟩), ("B", ⟨c8Ctx, [], "t0"⟩)] "B" ∧
    dictGet (save_agent_state
        [("A", ⟨emptyCtx, [], "t0"⟩), ("B", ⟨c8Ctx, [], "t0"⟩)]
        "A" ⟨c2Ctx, [⟨"hi", "ok", "t1"⟩]⟩ "t1") "A" =
      some ⟨c2Ctx, [⟨"hi", "ok", "t1"⟩], "t1"⟩ :=
  C10_save_state_frame
    [("A", ⟨emptyCtx, [], "t0"⟩), ("B", ⟨c8Ctx, [], "t0"⟩)]
    "A" "B" ⟨c2Ctx, [⟨"hi", "ok", "t1"⟩]⟩ "t1" (by decide)

end HotelBooking
